import Mathlib

/-!
Shallow embedding of the conductor core (`ironic/conductor/manager.py`).

Each RPC handler of `ConductorManager` that the verified claims mention is
translated to a pure Lean function.  Driver calls are modelled as record
fields returning `Except Err _` (a Python exception becomes `.error e`).
Node persistence (`node.save(context)`) is modelled by returning the node
value that is stored in the database when the handler finishes; handlers
additionally report instrumentation flags (which driver methods were
invoked, whether the task lock was taken) so that claims about "no driver
call is made" are statable.
-/

/-- The state constants of the `states` module (power and provision states
share one value space; in the source they are strings or `None`). -/
inductive IState where
  | NOSTATE
  | POWER_ON
  | POWER_OFF
  | DEPLOYING
  | DEPLOYDONE
  | ACTIVE
  | DELETING
  | DELETED
  | DEPLOYFAIL
  | ERROR
  deriving DecidableEq, Repr

/-- Rendering of a state for interpolation into error messages. -/
def IState.str : IState → String
  | .NOSTATE => "None"
  | .POWER_ON => "power on"
  | .POWER_OFF => "power off"
  | .DEPLOYING => "deploying"
  | .DEPLOYDONE => "deploy complete"
  | .ACTIVE => "active"
  | .DELETING => "deleting"
  | .DELETED => "deleted"
  | .DEPLOYFAIL => "deploy failed"
  | .ERROR => "error"

/-- Exceptions that can cross the handlers of `manager.py`.  `AttributeError`
models Python attribute access on a missing/None attribute; `DriverFailure`
stands for an arbitrary exception raised inside a driver method. -/
inductive Err where
  | IronicException (msg : String)
  | NodeInWrongPowerState (node : String) (pstate : IState)
  | UnsupportedDriverExtension (driver : String) (node : String) (extension : String)
  | InstanceDeployFailure (msg : String)
  | InvalidParameterValue (msg : String)
  | AttributeError (attr : String)
  | DriverFailure (msg : String)
  deriving DecidableEq, Repr

/-- Rendering of an exception for interpolation into `last_error` texts. -/
def Err.str : Err → String
  | .IronicException m => m
  | .NodeInWrongPowerState n p => "Node " ++ n ++ " in wrong power state " ++ p.str
  | .UnsupportedDriverExtension d n e =>
      "Driver " ++ d ++ " on node " ++ n ++ " does not support " ++ e
  | .InstanceDeployFailure m => m
  | .InvalidParameterValue m => m
  | .AttributeError a => "object has no attribute " ++ a
  | .DriverFailure m => m

/-- A node record, restricted to the fields the conductor handlers touch.
`extra` stands for the remaining generic updatable payload. -/
structure Node where
  uuid : String
  driver : String
  power_state : IState
  target_power_state : IState
  provision_state : IState
  target_provision_state : IState
  instance_uuid : Option String
  last_error : Option String
  extra : String
  deriving DecidableEq, Repr

/-- The power capability of a driver: `validate`, `get_power_state`,
`set_power_state`; every call may fail. -/
structure PowerInterface where
  validate : Node → Except Err Unit
  get_power_state : Node → Except Err IState
  set_power_state : Node → IState → Except Err Unit

/-- The deploy capability of a driver: `validate`, `deploy`, `tear_down`. -/
structure DeployInterface where
  validate : Node → Except Err Unit
  deploy : Node → Except Err IState
  tear_down : Node → Except Err IState

/-- The optional vendor capability: `validate` and `vendor_passthru`
(the `info` kwargs are folded into the method name, which the claims never
inspect). -/
structure VendorInterface where
  validate : Node → String → Except Err String
  vendor_passthru : Node → String → Except Err Unit

/-- A loaded driver bundle; `vendor := none` models a driver whose `vendor`
attribute is absent or `None`. -/
structure Driver where
  power : PowerInterface
  deploy : DeployInterface
  vendor : Option VendorInterface

instance {ε α : Type} [DecidableEq ε] [DecidableEq α] :
    DecidableEq (Except ε α) := fun x y =>
  match x, y with
  | .error a, .error b =>
      if h : a = b then .isTrue (h ▸ rfl)
      else .isFalse (fun hc => h (Except.error.inj hc))
  | .error _, .ok _ => .isFalse (fun hc => Except.noConfusion hc)
  | .ok _, .error _ => .isFalse (fun hc => Except.noConfusion hc)
  | .ok a, .ok b =>
      if h : a = b then .isTrue (h ▸ rfl)
      else .isFalse (fun hc => h (Except.ok.inj hc))

/-- The `last_error` text written by `change_node_power_state` on failure:
"Failed to change power state to ... Error: ...". -/
def powerFailMsg (target : IState) (e : Err) : String :=
  "Failed to change power state to " ++ target.str ++ ". Error: " ++ e.str

/-- Outcome of `update_node`: the RPC result, the node row stored in the
database afterwards, and instrumentation (task lock taken, power.validate
invoked, power.get_power_state invoked). -/
structure UpdateResult where
  res : Except Err Node
  db : Node
  lock_acquired : Bool
  validate_called : Bool
  get_called : Bool
  deriving DecidableEq, Repr

/-- `ConductorManager.update_node` (manager.py:113-151).  `delta` is
`node_obj.obj_what_changed()`; `db` is the stored row at entry; `node_obj`
the changed-but-unsaved object.  Faithful points: the `power_state` check
precedes task acquisition; on the `instance_uuid` branch the live-probed
state is assigned into `node_obj['power_state']` before the POWER_OFF
check, so a successful save persists that probed value. -/
def update_node (drv : PowerInterface) (delta : List String)
    (db : Node) (node_obj : Node) : UpdateResult :=
  if "power_state" ∈ delta then
    { res := .error (.IronicException
        "Invalid method call: update_node can not change node state."),
      db := db, lock_acquired := false,
      validate_called := false, get_called := false }
  else
    if "instance_uuid" ∈ delta then
      match drv.validate node_obj with
      | .error e =>
          { res := .error e, db := db, lock_acquired := true,
            validate_called := true, get_called := false }
      | .ok _ =>
          match drv.get_power_state node_obj with
          | .error e =>
              { res := .error e, db := db, lock_acquired := true,
                validate_called := true, get_called := true }
          | .ok live =>
              let node2 := { node_obj with power_state := live }
              if live ≠ IState.POWER_OFF then
                { res := .error (.NodeInWrongPowerState node_obj.uuid live),
                  db := db, lock_acquired := true,
                  validate_called := true, get_called := true }
              else
                { res := .ok node2, db := node2, lock_acquired := true,
                  validate_called := true, get_called := true }
    else
      { res := .ok node_obj, db := node_obj, lock_acquired := true,
        validate_called := false, get_called := false }

/-- The in-progress node persisted by `change_node_power_state` before the
power action: `target_power_state := new_state`, `last_error` cleared. -/
def powerProgressNode (node : Node) (new_state : IState) : Node :=
  { node with target_power_state := new_state, last_error := none }

/-- Outcome of `change_node_power_state`: the RPC result, the stored node
row, and whether `set_power_state` was invoked. -/
structure PowerOpResult where
  res : Except Err Unit
  node : Node
  set_called : Bool
  deriving DecidableEq, Repr

/-- `ConductorManager.change_node_power_state` (manager.py:153-225).
Faithful points: validate/get failures persist only `last_error`; the
same-state short-circuit persists `last_error := none` and returns without
touching `target_power_state`; otherwise the in-progress marker
`(target_power_state := new_state, last_error := none)` is persisted, then
`set_power_state` runs, and the `finally` clears `target_power_state` and
persists on both outcomes. -/
def change_node_power_state (drv : PowerInterface) (node : Node)
    (new_state : IState) : PowerOpResult :=
  match drv.validate node with
  | .error e =>
      { res := .error e,
        node := { node with last_error := some (powerFailMsg new_state e) },
        set_called := false }
  | .ok _ =>
      match drv.get_power_state node with
      | .error e =>
          { res := .error e,
            node := { node with last_error := some (powerFailMsg new_state e) },
            set_called := false }
      | .ok curr =>
          if curr = new_state then
            { res := .ok (), node := { node with last_error := none },
              set_called := false }
          else
            match drv.set_power_state (powerProgressNode node new_state)
                new_state with
            | .error e =>
                { res := .error e,
                  node := { powerProgressNode node new_state with
                              last_error := some (powerFailMsg new_state e),
                              target_power_state := IState.NOSTATE },
                  set_called := true }
            | .ok _ =>
                { res := .ok (),
                  node := { powerProgressNode node new_state with
                              power_state := new_state,
                              target_power_state := IState.NOSTATE },
                  set_called := true }

/-- `ConductorManager.validate_vendor_action` (manager.py:235-248): a
missing vendor capability raises `UnsupportedDriverExtension`. -/
def validate_vendor_action (drv : Driver) (node : Node) (method : String) :
    Except Err String :=
  match drv.vendor with
  | some v => v.validate node method
  | none => .error (.UnsupportedDriverExtension node.driver node.uuid
      "vendor passthru")

/-- `ConductorManager.do_vendor_action` (manager.py:250-255): the vendor
capability is dereferenced without any check, so a missing capability
surfaces as a plain `AttributeError`. -/
def do_vendor_action (drv : Driver) (node : Node) (method : String) :
    Except Err Unit :=
  match drv.vendor with
  | some v => v.vendor_passthru node method
  | none => .error (.AttributeError "vendor_passthru")

/-- The precondition-violation message of `do_node_deploy`. -/
def deployPreMsg (uuid : String) (st : IState) : String :=
  "RPC do_node_deploy called for " ++ uuid ++
  ", but provision state is already " ++ st.str ++ "."

/-- The precondition-violation message of `do_node_tear_down`. -/
def tearDownPreMsg (uuid : String) (st : IState) : String :=
  "RCP do_node_tear_down not allowed for node " ++ uuid ++
  " in state " ++ st.str

/-- The `last_error` text of a deploy validate failure. -/
def deployValFailMsg (e : Err) : String :=
  "Failed to validate deploy info. Error: " ++ e.str

/-- The `last_error` text of a deploy failure. -/
def deployFailMsg (e : Err) : String :=
  "Failed to deploy. Error: " ++ e.str

/-- The `last_error` text of a tear-down validate failure. -/
def tearValFailMsg (e : Err) : String :=
  "Failed to validate info for teardown. Error: " ++ e.str

/-- The `last_error` text of a tear-down failure. -/
def tearFailMsg (e : Err) : String :=
  "Failed to tear down. Error: " ++ e.str

/-- The in-progress node persisted by `do_node_deploy` after a successful
`deploy.validate`: `(DEPLOYING, DEPLOYDONE)`, `last_error` cleared. -/
def deployingNode (node : Node) : Node :=
  { node with provision_state := IState.DEPLOYING,
              target_provision_state := IState.DEPLOYDONE,
              last_error := none }

/-- The in-progress node persisted by `do_node_tear_down` after a
successful `deploy.validate`: `(DELETING, DELETED)`, `last_error`
cleared. -/
def deletingNode (node : Node) : Node :=
  { node with provision_state := IState.DELETING,
              target_provision_state := IState.DELETED,
              last_error := none }

/-- Outcome of `do_node_deploy` / `do_node_tear_down`: the RPC result, the
stored node row, and whether the driver deploy/tear_down method was
invoked. -/
structure DeployOpResult where
  res : Except Err Unit
  node : Node
  driver_called : Bool
  deriving DecidableEq, Repr

/-- `ConductorManager.do_node_deploy` (manager.py:257-306).  Precondition
`provision_state == NOSTATE`; a validate failure persists only
`last_error` and re-raises; a deploy failure persists
`(ERROR, NOSTATE, last_error)`; a returned `DEPLOYDONE` yields
`(ACTIVE, NOSTATE)`; any other returned state is stored verbatim with the
target kept. -/
def do_node_deploy (drv : DeployInterface) (node : Node) : DeployOpResult :=
  if node.provision_state ≠ IState.NOSTATE then
    { res := .error (.InstanceDeployFailure
        (deployPreMsg node.uuid node.provision_state)),
      node := node, driver_called := false }
  else
    match drv.validate node with
    | .error e =>
        { res := .error e,
          node := { node with last_error := some (deployValFailMsg e) },
          driver_called := false }
    | .ok _ =>
        match drv.deploy (deployingNode node) with
        | .error e =>
            { res := .error e,
              node := { deployingNode node with
                          last_error := some (deployFailMsg e),
                          provision_state := IState.ERROR,
                          target_provision_state := IState.NOSTATE },
              driver_called := true }
        | .ok new_state =>
            if new_state = IState.DEPLOYDONE then
              { res := .ok (),
                node := { deployingNode node with
                            target_provision_state := IState.NOSTATE,
                            provision_state := IState.ACTIVE },
                driver_called := true }
            else
              { res := .ok (),
                node := { deployingNode node with
                            provision_state := new_state },
                driver_called := true }

/-- `ConductorManager.do_node_tear_down` (manager.py:308-360).
Precondition `provision_state ∈ {ACTIVE, DEPLOYFAIL, ERROR}`; otherwise
the same skeleton as `do_node_deploy` with the `(DELETING, DELETED)` pair
and terminal `(NOSTATE, NOSTATE)` on a returned `DELETED`. -/
def do_node_tear_down (drv : DeployInterface) (node : Node) : DeployOpResult :=
  if node.provision_state ∉
      [IState.ACTIVE, IState.DEPLOYFAIL, IState.ERROR] then
    { res := .error (.InstanceDeployFailure
        (tearDownPreMsg node.uuid node.provision_state)),
      node := node, driver_called := false }
  else
    match drv.validate node with
    | .error e =>
        { res := .error e,
          node := { node with last_error := some (tearValFailMsg e) },
          driver_called := false }
    | .ok _ =>
        match drv.tear_down (deletingNode node) with
        | .error e =>
            { res := .error e,
              node := { deletingNode node with
                          last_error := some (tearFailMsg e),
                          provision_state := IState.ERROR,
                          target_provision_state := IState.NOSTATE },
              driver_called := true }
        | .ok new_state =>
            if new_state = IState.DELETED then
              { res := .ok (),
                node := { deletingNode node with
                            target_provision_state := IState.NOSTATE,
                            provision_state := IState.NOSTATE },
                driver_called := true }
            else
              { res := .ok (),
                node := { deletingNode node with
                            provision_state := new_state },
                driver_called := true }

/-! Concrete fixtures used by the witnesses and counterexamples. -/

/-- A baseline node: unassociated, powered-off cache unknown, no errors. -/
def node0 : Node :=
  { uuid := "u1", driver := "fake", power_state := IState.NOSTATE,
    target_power_state := IState.NOSTATE,
    provision_state := IState.NOSTATE,
    target_provision_state := IState.NOSTATE,
    instance_uuid := none, last_error := none, extra := "one" }

/-- `node0` with a pending workload association. -/
def nodeAssoc : Node := { node0 with instance_uuid := some "fake-uuid" }

/-- A power driver whose live probe reports `POWER_OFF`; all calls
succeed. -/
def powerOffDrv : PowerInterface :=
  { validate := fun _ => .ok (),
    get_power_state := fun _ => .ok IState.POWER_OFF,
    set_power_state := fun _ _ => .ok () }

/-- A power driver whose live probe reports `POWER_ON` and whose
`set_power_state` raises. -/
def powerOnSetFailsDrv : PowerInterface :=
  { validate := fun _ => .ok (),
    get_power_state := fun _ => .ok IState.POWER_ON,
    set_power_state := fun _ _ => .error (.DriverFailure "set failed") }

/-- A power driver whose `validate` raises. -/
def powerBadDrv : PowerInterface :=
  { validate := fun _ => .error (.InvalidParameterValue "bad driver info"),
    get_power_state := fun _ => .ok IState.POWER_OFF,
    set_power_state := fun _ _ => .ok () }

/-- A deploy driver whose `deploy` reports `DEPLOYDONE` and whose
`tear_down` reports `DELETED`. -/
def deployOkDrv : DeployInterface :=
  { validate := fun _ => .ok (),
    deploy := fun _ => .ok IState.DEPLOYDONE,
    tear_down := fun _ => .ok IState.DELETED }

/-- A deploy driver whose `validate` raises. -/
def deployBadValDrv : DeployInterface :=
  { validate := fun _ => .error (.InvalidParameterValue "bad deploy info"),
    deploy := fun _ => .ok IState.DEPLOYDONE,
    tear_down := fun _ => .ok IState.DELETED }

/-- A driver bundle without the vendor capability. -/
def noVendorDrv : Driver :=
  { power := powerOffDrv, deploy := deployOkDrv, vendor := none }

/-! Claim theorems. -/

/-- C9: when `power_state` is in the delta, `update_node` fails with
`IronicException` ("Invalid method call: update_node can not change node
state."), before any task lock is acquired, and the stored node row is
untouched. -/
theorem C9_update_rejects_power_state (drv : PowerInterface)
    (delta : List String) (db node_obj : Node)
    (h : "power_state" ∈ delta) :
    (update_node drv delta db node_obj).res =
      .error (.IronicException
        "Invalid method call: update_node can not change node state.") ∧
    (update_node drv delta db node_obj).lock_acquired = false ∧
    (update_node drv delta db node_obj).db = db := by
  simp [update_node, h]

theorem C9_update_rejects_power_state_witness :
    (update_node powerOffDrv ["power_state"] node0 node0).res =
      .error (.IronicException
        "Invalid method call: update_node can not change node state.") ∧
    (update_node powerOffDrv ["power_state"] node0 node0).lock_acquired
      = false ∧
    (update_node powerOffDrv ["power_state"] node0 node0).db = node0 :=
  C9_update_rejects_power_state powerOffDrv ["power_state"] node0 node0
    (by decide)

/-- C8: when `instance_uuid` is in the delta (and `power_state` is not, so
the call reaches the association branch), `power.validate` is invoked and
`get_power_state` is live-probed; if the observed live state is not
`POWER_OFF` the call fails with `NodeInWrongPowerState(node,
observed_state)` and the stored node row is unchanged. -/
theorem C8_assoc_requires_power_off (drv : PowerInterface)
    (delta : List String) (db node_obj : Node) (s : IState)
    (hps : "power_state" ∉ delta) (hiu : "instance_uuid" ∈ delta)
    (hv : drv.validate node_obj = .ok ())
    (hg : drv.get_power_state node_obj = .ok s)
    (hs : s ≠ IState.POWER_OFF) :
    (update_node drv delta db node_obj).validate_called = true ∧
    (update_node drv delta db node_obj).get_called = true ∧
    (update_node drv delta db node_obj).res =
      .error (.NodeInWrongPowerState node_obj.uuid s) ∧
    (update_node drv delta db node_obj).db = db := by
  simp [update_node, hps, hiu, hv, hg, hs]

theorem C8_assoc_requires_power_off_witness :
    (update_node powerOnSetFailsDrv ["instance_uuid"] node0 nodeAssoc
      ).validate_called = true ∧
    (update_node powerOnSetFailsDrv ["instance_uuid"] node0 nodeAssoc
      ).get_called = true ∧
    (update_node powerOnSetFailsDrv ["instance_uuid"] node0 nodeAssoc).res =
      .error (.NodeInWrongPowerState nodeAssoc.uuid IState.POWER_ON) ∧
    (update_node powerOnSetFailsDrv ["instance_uuid"] node0 nodeAssoc).db =
      node0 :=
  C8_assoc_requires_power_off powerOnSetFailsDrv ["instance_uuid"] node0
    nodeAssoc IState.POWER_ON (by decide) (by decide) rfl rfl (by decide)

/-- C1 counterexample: a successful `update_node` call on the
`instance_uuid` branch persists the live-probed `POWER_OFF` into
`power_state`, so when the stored cache was `NOSTATE` the stored
`power_state` changes on a successful return. -/
theorem C1_counterexample :
    (update_node powerOffDrv ["instance_uuid"] node0 nodeAssoc).res =
      .ok { nodeAssoc with power_state := IState.POWER_OFF } ∧
    (update_node powerOffDrv ["instance_uuid"] node0 nodeAssoc
      ).db.power_state ≠ node0.power_state := by
  decide

/-- C1 (amended): `update_node` never persists `power_state` from the
caller's input; on a successful return the stored `power_state` is the
live-probed value (necessarily `POWER_OFF`) when `instance_uuid` is in the
delta, and is unchanged otherwise. -/
theorem C1_power_state_not_from_input (drv : PowerInterface)
    (delta : List String) (db node_obj r : Node)
    (hps : "power_state" ∉ delta)
    (hbase : node_obj.power_state = db.power_state)
    (hok : (update_node drv delta db node_obj).res = .ok r) :
    ("instance_uuid" ∈ delta →
      (update_node drv delta db node_obj).db.power_state =
        IState.POWER_OFF) ∧
    ("instance_uuid" ∉ delta →
      (update_node drv delta db node_obj).db.power_state =
        db.power_state) := by
  unfold update_node at hok ⊢
  rw [if_neg hps] at hok ⊢
  by_cases hiu : "instance_uuid" ∈ delta
  · rw [if_pos hiu] at hok ⊢
    cases hval : drv.validate node_obj with
    | error e => simp [hval] at hok
    | ok u =>
      simp only [hval] at hok ⊢
      cases hget : drv.get_power_state node_obj with
      | error e => simp [hget] at hok
      | ok live =>
        simp only [hget] at hok ⊢
        by_cases hl : live = IState.POWER_OFF
        · rw [if_neg (not_not_intro hl)] at hok ⊢
          exact ⟨fun _ => by simp [hl], fun hc => absurd hiu hc⟩
        · rw [if_pos hl] at hok; exact absurd hok (by simp)
  · rw [if_neg hiu] at hok ⊢
    exact ⟨fun hc => absurd hc hiu, fun _ => hbase⟩

theorem C1_power_state_not_from_input_witness :
    (update_node powerOffDrv ["instance_uuid"] node0 nodeAssoc
      ).db.power_state = IState.POWER_OFF :=
  (C1_power_state_not_from_input powerOffDrv ["instance_uuid"] node0
      nodeAssoc { nodeAssoc with power_state := IState.POWER_OFF }
      (by decide) (by decide) (by decide)).1 (by decide)

/-- A node carrying a stale in-progress power target, as left behind by a
crashed conductor. -/
def nodeStaleTarget : Node :=
  { node0 with power_state := IState.POWER_ON,
               target_power_state := IState.POWER_ON }

/-- C2 counterexample: on the same-state short-circuit path,
`change_node_power_state` returns successfully without clearing a stale
`target_power_state`, so the claim that `target_power_state = NOSTATE`
after every successful return is false. -/
theorem C2_counterexample :
    (change_node_power_state powerOnSetFailsDrv nodeStaleTarget
      IState.POWER_ON).res = .ok () ∧
    (change_node_power_state powerOnSetFailsDrv nodeStaleTarget
      IState.POWER_ON).node.target_power_state ≠ IState.NOSTATE := by
  decide

/-- C2 (amended): whenever `set_power_state` was invoked — both on its
success and when it raised — `target_power_state` is cleared to `NOSTATE`
in the persisted node; a successful return that never invoked
`set_power_state` (the short-circuit) leaves `target_power_state` at its
entry value. -/
theorem C2_target_cleared_after_set (drv : PowerInterface) (node : Node)
    (s : IState) :
    ((change_node_power_state drv node s).set_called = true →
      (change_node_power_state drv node s).node.target_power_state =
        IState.NOSTATE) ∧
    ((change_node_power_state drv node s).res = .ok () ∧
        (change_node_power_state drv node s).set_called = false →
      (change_node_power_state drv node s).node.target_power_state =
        node.target_power_state) := by
  unfold change_node_power_state
  cases hval : drv.validate node with
  | error e => simp
  | ok u =>
    cases hget : drv.get_power_state node with
    | error e => simp
    | ok curr =>
      dsimp only
      by_cases hc : curr = s
      · simp [hc]
      · rw [if_neg hc]
        cases hset : drv.set_power_state (powerProgressNode node s) s with
        | error e => simp
        | ok u2 => simp

theorem C2_target_cleared_after_set_witness :
    (change_node_power_state powerOffDrv node0
      IState.POWER_ON).node.target_power_state = IState.NOSTATE :=
  (C2_target_cleared_after_set powerOffDrv node0 IState.POWER_ON).1
    (by decide)

/-- C3: every failing `change_node_power_state` call leaves `power_state`
at its entry value and leaves a non-null `last_error` in the persisted
node. -/
theorem C3_failure_keeps_power_state (drv : PowerInterface) (node : Node)
    (s : IState) (e : Err)
    (h : (change_node_power_state drv node s).res = .error e) :
    (change_node_power_state drv node s).node.power_state =
      node.power_state ∧
    (change_node_power_state drv node s).node.last_error ≠ none := by
  unfold change_node_power_state at h ⊢
  cases hval : drv.validate node with
  | error e2 => simp [hval]
  | ok u =>
    simp only [hval] at h ⊢
    cases hget : drv.get_power_state node with
    | error e2 => simp
    | ok curr =>
      simp only [hget] at h ⊢
      by_cases hc : curr = s
      · rw [if_pos hc] at h; exact absurd h (by simp)
      · rw [if_neg hc] at h ⊢
        cases hset : drv.set_power_state (powerProgressNode node s) s with
        | error e2 => simp [powerProgressNode]
        | ok u2 => simp [hset] at h

theorem C3_failure_keeps_power_state_witness :
    (change_node_power_state powerBadDrv node0
      IState.POWER_ON).node.power_state = node0.power_state ∧
    (change_node_power_state powerBadDrv node0
      IState.POWER_ON).node.last_error ≠ none :=
  C3_failure_keeps_power_state powerBadDrv node0 IState.POWER_ON
    (.InvalidParameterValue "bad driver info") (by decide)

/-- C4: when the live-probed state already equals the requested state,
`change_node_power_state` returns successfully, never invokes
`set_power_state`, and persists `last_error := none`. -/
theorem C4_same_state_short_circuit (drv : PowerInterface) (node : Node)
    (s : IState)
    (hv : drv.validate node = .ok ())
    (hg : drv.get_power_state node = .ok s) :
    (change_node_power_state drv node s).res = .ok () ∧
    (change_node_power_state drv node s).set_called = false ∧
    (change_node_power_state drv node s).node.last_error = none := by
  simp [change_node_power_state, hv, hg]

theorem C4_same_state_short_circuit_witness :
    (change_node_power_state powerOnSetFailsDrv nodeStaleTarget
      IState.POWER_ON).res = .ok () ∧
    (change_node_power_state powerOnSetFailsDrv nodeStaleTarget
      IState.POWER_ON).set_called = false ∧
    (change_node_power_state powerOnSetFailsDrv nodeStaleTarget
      IState.POWER_ON).node.last_error = none :=
  C4_same_state_short_circuit powerOnSetFailsDrv nodeStaleTarget
    IState.POWER_ON rfl rfl

/-- `node0` in the `ACTIVE` provision state. -/
def nodeActive : Node := { node0 with provision_state := IState.ACTIVE }

/-- Whether a handler outcome is an `InstanceDeployFailure`. -/
def isIDF : Except Err Unit → Bool
  | .error (.InstanceDeployFailure _) => true
  | _ => false

/-- Whether a handler outcome is an `UnsupportedDriverExtension`. -/
def isUDE : Except Err Unit → Bool
  | .error (.UnsupportedDriverExtension _ _ _) => true
  | _ => false

/-- C5: when the deploy precondition and validation pass and the driver's
deploy call returns a state, `do_node_deploy` succeeds; a returned
`DEPLOYDONE` is persisted as `(provision_state = ACTIVE,
target_provision_state = NOSTATE, last_error = none)`, and any other
returned state is stored verbatim in `provision_state` with the target
kept at `DEPLOYDONE`. -/
theorem C5_deploy_result (drv : DeployInterface) (node : Node) (s : IState)
    (hpre : node.provision_state = IState.NOSTATE)
    (hv : drv.validate node = .ok ())
    (hd : drv.deploy (deployingNode node) = .ok s) :
    (do_node_deploy drv node).res = .ok () ∧
    (s = IState.DEPLOYDONE →
      (do_node_deploy drv node).node.provision_state = IState.ACTIVE ∧
      (do_node_deploy drv node).node.target_provision_state =
        IState.NOSTATE ∧
      (do_node_deploy drv node).node.last_error = none) ∧
    (s ≠ IState.DEPLOYDONE →
      (do_node_deploy drv node).node.provision_state = s ∧
      (do_node_deploy drv node).node.target_provision_state =
        IState.DEPLOYDONE) := by
  unfold do_node_deploy
  rw [if_neg (not_not_intro hpre), hv]
  dsimp only
  rw [hd]
  dsimp only
  by_cases hs : s = IState.DEPLOYDONE
  · rw [if_pos hs]
    exact ⟨rfl, fun _ => ⟨rfl, rfl, rfl⟩, fun hc => absurd hs hc⟩
  · rw [if_neg hs]
    exact ⟨rfl, fun hc => absurd hc hs, fun _ => ⟨rfl, rfl⟩⟩

theorem C5_deploy_result_witness :
    (do_node_deploy deployOkDrv node0).res = .ok () ∧
    (do_node_deploy deployOkDrv node0).node.provision_state =
      IState.ACTIVE ∧
    (do_node_deploy deployOkDrv node0).node.target_provision_state =
      IState.NOSTATE ∧
    (do_node_deploy deployOkDrv node0).node.last_error = none := by
  have h := C5_deploy_result deployOkDrv node0 IState.DEPLOYDONE rfl rfl rfl
  exact ⟨h.1, (h.2.1 rfl).1, (h.2.1 rfl).2.1, (h.2.1 rfl).2.2⟩

/-- C6: `do_node_deploy` rejects any node whose `provision_state` is not
`NOSTATE` with an `InstanceDeployFailure`, and `do_node_tear_down`
rejects any node whose `provision_state` is outside
`{ACTIVE, DEPLOYFAIL, ERROR}` with an `InstanceDeployFailure`; in both
rejection cases the driver deploy/tear_down method is not invoked. -/
theorem C6_provision_preconditions (drv : DeployInterface) (node : Node) :
    (node.provision_state ≠ IState.NOSTATE →
      isIDF (do_node_deploy drv node).res = true ∧
      (do_node_deploy drv node).driver_called = false) ∧
    (node.provision_state ∉
        [IState.ACTIVE, IState.DEPLOYFAIL, IState.ERROR] →
      isIDF (do_node_tear_down drv node).res = true ∧
      (do_node_tear_down drv node).driver_called = false) := by
  refine ⟨fun h => ?_, fun h => ?_⟩
  · unfold do_node_deploy
    rw [if_pos h]
    exact ⟨rfl, rfl⟩
  · unfold do_node_tear_down
    rw [if_pos h]
    exact ⟨rfl, rfl⟩

theorem C6_provision_preconditions_witness :
    (isIDF (do_node_deploy deployOkDrv nodeActive).res = true ∧
      (do_node_deploy deployOkDrv nodeActive).driver_called = false) ∧
    (isIDF (do_node_tear_down deployOkDrv node0).res = true ∧
      (do_node_tear_down deployOkDrv node0).driver_called = false) :=
  ⟨(C6_provision_preconditions deployOkDrv nodeActive).1 (by decide),
   (C6_provision_preconditions deployOkDrv node0).2 (by decide)⟩

/-- C10: in both `do_node_deploy` and `do_node_tear_down`, when the
precondition passes but `deploy.validate` raises, the error is re-raised
with `last_error` set in the persisted node, while `provision_state` and
`target_provision_state` keep their entry values and the driver
deploy/tear_down method is not invoked. -/
theorem C10_validate_failure_keeps_states (drv : DeployInterface)
    (node : Node) (e : Err) (hv : drv.validate node = .error e) :
    (node.provision_state = IState.NOSTATE →
      (do_node_deploy drv node).res = .error e ∧
      (do_node_deploy drv node).driver_called = false ∧
      (do_node_deploy drv node).node.provision_state =
        node.provision_state ∧
      (do_node_deploy drv node).node.target_provision_state =
        node.target_provision_state ∧
      (do_node_deploy drv node).node.last_error =
        some (deployValFailMsg e)) ∧
    (node.provision_state ∈
        [IState.ACTIVE, IState.DEPLOYFAIL, IState.ERROR] →
      (do_node_tear_down drv node).res = .error e ∧
      (do_node_tear_down drv node).driver_called = false ∧
      (do_node_tear_down drv node).node.provision_state =
        node.provision_state ∧
      (do_node_tear_down drv node).node.target_provision_state =
        node.target_provision_state ∧
      (do_node_tear_down drv node).node.last_error =
        some (tearValFailMsg e)) := by
  refine ⟨fun hpre => ?_, fun hpre => ?_⟩
  · unfold do_node_deploy
    rw [if_neg (not_not_intro hpre), hv]
    exact ⟨rfl, rfl, rfl, rfl, rfl⟩
  · unfold do_node_tear_down
    rw [if_neg (not_not_intro hpre), hv]
    exact ⟨rfl, rfl, rfl, rfl, rfl⟩

theorem C10_validate_failure_keeps_states_witness :
    ((do_node_deploy deployBadValDrv node0).res =
        .error (.InvalidParameterValue "bad deploy info") ∧
      (do_node_deploy deployBadValDrv node0).driver_called = false ∧
      (do_node_deploy deployBadValDrv node0).node.provision_state =
        node0.provision_state ∧
      (do_node_deploy deployBadValDrv node0).node.target_provision_state =
        node0.target_provision_state ∧
      (do_node_deploy deployBadValDrv node0).node.last_error =
        some (deployValFailMsg (.InvalidParameterValue
          "bad deploy info"))) ∧
    ((do_node_tear_down deployBadValDrv nodeActive).res =
        .error (.InvalidParameterValue "bad deploy info") ∧
      (do_node_tear_down deployBadValDrv nodeActive).driver_called =
        false ∧
      (do_node_tear_down deployBadValDrv nodeActive).node.provision_state =
        nodeActive.provision_state ∧
      (do_node_tear_down deployBadValDrv
          nodeActive).node.target_provision_state =
        nodeActive.target_provision_state ∧
      (do_node_tear_down deployBadValDrv nodeActive).node.last_error =
        some (tearValFailMsg (.InvalidParameterValue
          "bad deploy info"))) :=
  ⟨(C10_validate_failure_keeps_states deployBadValDrv node0
      (.InvalidParameterValue "bad deploy info") rfl).1 rfl,
   (C10_validate_failure_keeps_states deployBadValDrv nodeActive
      (.InvalidParameterValue "bad deploy info") rfl).2 (by decide)⟩

/-- C7 counterexample: on a driver without the vendor capability,
`do_vendor_action` dereferences `driver.vendor` without any check and so
fails with a plain `AttributeError`, not with
`UnsupportedDriverExtension` as the claim requires. -/
theorem C7_counterexample :
    do_vendor_action noVendorDrv node0 "foo" =
      .error (.AttributeError "vendor_passthru") ∧
    isUDE (do_vendor_action noVendorDrv node0 "foo") = false := by
  decide

/-- C7 (amended): on a driver lacking the vendor capability,
`validate_vendor_action` fails with `UnsupportedDriverExtension(driver,
node, "vendor passthru")`, while `do_vendor_action` fails with a plain
attribute access error (`AttributeError`), not
`UnsupportedDriverExtension`. -/
theorem C7_missing_vendor_errors (drv : Driver) (node : Node) (m : String)
    (h : drv.vendor = none) :
    validate_vendor_action drv node m =
      .error (.UnsupportedDriverExtension node.driver node.uuid
        "vendor passthru") ∧
    do_vendor_action drv node m =
      .error (.AttributeError "vendor_passthru") := by
  simp [validate_vendor_action, do_vendor_action, h]

theorem C7_missing_vendor_errors_witness :
    validate_vendor_action noVendorDrv node0 "foo" =
      .error (.UnsupportedDriverExtension node0.driver node0.uuid
        "vendor passthru") ∧
    do_vendor_action noVendorDrv node0 "foo" =
      .error (.AttributeError "vendor_passthru") :=
  C7_missing_vendor_errors noVendorDrv node0 "foo" rfl
